import Mathlib

/-
Verification of the classroom booking service (FastAPI_BookingSystem).

The development shallowly embeds the booking logic of the repository:
the availability check and time validation of src/main.py, the per-hour
slot expansion loop of src/app/routes/user.py, the update loop of
src/gruppkod2.py and src/Classroom_API.py, and the review listing of
src/main.py.  Instants are modelled as a day index plus hour and minute
components; comparison of two instants is comparison of their total
minute counts, which matches Python datetime comparison for in-range
components.
-/

namespace BookingSystem

/-- An instant, as parsed by datetime.strptime with format
YYYY/MM/DD-HH:MM: a day index (the date part) plus the hour and
minute components of the time of day. -/
structure DateTime where
  day : Nat
  hour : Nat
  minute : Nat
deriving DecidableEq, Repr

/-- Total minutes since the epoch; two parsed datetimes compare exactly
as their total minute counts do. -/
def DateTime.toMinutes (d : DateTime) : Nat :=
  d.day * 1440 + d.hour * 60 + d.minute

/-- The Booking model of src/main.py: id, classroom_id, student_name and
a start/end instant. -/
structure Booking where
  id : Int
  classroom_id : Int
  student_name : String
  start_time : DateTime
  end_time : DateTime
deriving DecidableEq, Repr

/-- The rejection reasons the endpoints raise: the three reasons of
validate_booking_times, the availability conflict, and the 404 of a
lookup that finds no booking. -/
inductive RejectReason where
  | outsideOperatingHours
  | misalignedTime
  | invalidOrder
  | conflict
  | notFound
deriving DecidableEq, Repr

/-- is_classroom_available from src/main.py lines 57 to 71: scan the
bookings, skip the one whose id equals the excluded id, and return false
on the first booking of the same classroom whose window overlaps, where
no overlap means end_time is at most the existing start or start_time is
at least the existing end. -/
def is_classroom_available (bookings : List Booking) (classroom_id : Int)
    (s e : DateTime) (exclude_booking_id : Option Int) : Bool :=
  match bookings with
  | [] => true
  | booking :: rest =>
    if some booking.id = exclude_booking_id then
      is_classroom_available rest classroom_id s e exclude_booking_id
    else if booking.classroom_id = classroom_id ∧
        ¬(e.toMinutes ≤ booking.start_time.toMinutes ∨
          booking.end_time.toMinutes ≤ s.toMinutes) then
      false
    else
      is_classroom_available rest classroom_id s e exclude_booking_id

/-- validate_booking_times from src/main.py lines 74 to 84, as a pure
decision: the three raises become the three reasons, in the order the
source checks them (operating hours, then whole-hour alignment, then
start before end); none means no raise. -/
def validate_booking_times (s e : DateTime) : Option RejectReason :=
  if s.hour < 7 ∨ e.hour > 18 ∨ (e.hour = 18 ∧ e.minute > 0) then
    some RejectReason.outsideOperatingHours
  else if s.minute ≠ 0 ∨ e.minute ≠ 0 then
    some RejectReason.misalignedTime
  else if s.toMinutes ≥ e.toMinutes then
    some RejectReason.invalidOrder
  else
    none

/-- book_classroom from src/main.py lines 108 to 124 as a state
transformer on the bookings list: a raise leaves the list as it was and
reports the reason; on success the booking is appended with id equal to
the former length plus one. -/
def book_classroom_run (st : List Booking) (booking : Booking) :
    List Booking × Option RejectReason :=
  match validate_booking_times booking.start_time booking.end_time with
  | some r => (st, some r)
  | none =>
    if is_classroom_available st booking.classroom_id booking.start_time
        booking.end_time none then
      (st ++ [{ booking with id := Int.ofNat (st.length + 1) }], none)
    else
      (st, some RejectReason.conflict)

/-- The loop of change_booking from src/main.py lines 131 to 149: walk
the list; at the booking whose id matches, check availability against
the whole list excluding that id, and on success replace the entry by
the updated booking with its id overwritten by the path id. -/
def change_booking_loop (all pre : List Booking) (booking_id : Int)
    (updated_booking : Booking) : List Booking × Option RejectReason :=
  match pre with
  | [] => ([], some RejectReason.notFound)
  | b :: rest =>
    if b.id = booking_id then
      if is_classroom_available all updated_booking.classroom_id
          updated_booking.start_time updated_booking.end_time
          (some booking_id) then
        ({ updated_booking with id := booking_id } :: rest, none)
      else
        (b :: rest, some RejectReason.conflict)
    else
      ((b :: (change_booking_loop all rest booking_id updated_booking).1),
        (change_booking_loop all rest booking_id updated_booking).2)

/-- change_booking from src/main.py lines 126 to 149: validate the
updated times first, then run the replacement loop over the stored
bookings. -/
def change_booking_run (st : List Booking) (booking_id : Int)
    (updated_booking : Booking) : List Booking × Option RejectReason :=
  match validate_booking_times updated_booking.start_time
      updated_booking.end_time with
  | some r => (st, some r)
  | none => change_booking_loop st st booking_id updated_booking

/-- cancel_booking from src/main.py lines 151 to 166: remove the first
booking whose id matches; report notFound when none does. -/
def cancel_booking_loop (pre : List Booking) (booking_id : Int) :
    List Booking × Option RejectReason :=
  match pre with
  | [] => ([], some RejectReason.notFound)
  | b :: rest =>
    if b.id = booking_id then
      (rest, none)
    else
      ((b :: (cancel_booking_loop rest booking_id).1),
        (cancel_booking_loop rest booking_id).2)

/-- The loop of change_booking from src/gruppkod2.py lines 90 to 104 and
src/Classroom_API.py lines 81 to 90: as in main.py, except that the
availability scan excludes nothing and the stored entry becomes the
updated booking exactly as sent, its id field included. -/
def change_booking_loop_gk2 (all pre : List Booking) (booking_id : Int)
    (updated_booking : Booking) : List Booking × Option RejectReason :=
  match pre with
  | [] => ([], some RejectReason.notFound)
  | b :: rest =>
    if b.id = booking_id then
      if is_classroom_available all updated_booking.classroom_id
          updated_booking.start_time updated_booking.end_time none then
        (updated_booking :: rest, none)
      else
        (b :: rest, some RejectReason.conflict)
    else
      ((b :: (change_booking_loop_gk2 all rest booking_id updated_booking).1),
        (change_booking_loop_gk2 all rest booking_id updated_booking).2)

/-- The while loop of book_timeslot from src/app/routes/user.py lines 56
to 80, over minute counts: starting at the window start, emit one slot
of 60 minutes and advance by 60 minutes while the cursor is before the
window end. -/
def expandToUnitSlots (current finish : Nat) : List (Nat × Nat) :=
  if h : current < finish then
    (current, current + 60) :: expandToUnitSlots (current + 60) finish
  else
    []
termination_by finish - current
decreasing_by omega

/-- The Review model of src/main.py lines 34 to 38. -/
structure Review where
  classroom_id : Int
  student_name : String
  rating : Int
  comment : String
deriving DecidableEq, Repr

/-- list_reviews from src/main.py lines 180 to 198: the classroom_id
query parameter defaults to None; the filter runs only when the
parameter is truthy, so both None and 0 return every review. -/
def list_reviews (reviews : List Review) (classroom_id : Option Int) :
    List Review :=
  match classroom_id with
  | some c => if c = 0 then reviews else
      reviews.filter (fun r => r.classroom_id == c)
  | none => reviews

/-- Unfolding of the availability scan on a nonempty list. -/
theorem available_cons (b : Booking) (rest : List Booking) (cid : Int)
    (s e : DateTime) (ex : Option Int) :
    is_classroom_available (b :: rest) cid s e ex =
      if some b.id = ex then is_classroom_available rest cid s e ex
      else if b.classroom_id = cid ∧
          ¬(e.toMinutes ≤ b.start_time.toMinutes ∨
            b.end_time.toMinutes ≤ s.toMinutes) then
        false
      else is_classroom_available rest cid s e ex := rfl

/-- The availability scan accepts exactly when every non-excluded booking
of the same classroom misses the candidate window. -/
theorem available_iff_forall (bookings : List Booking) (cid : Int)
    (s e : DateTime) (ex : Option Int) :
    is_classroom_available bookings cid s e ex = true ↔
      ∀ b ∈ bookings, some b.id ≠ ex → b.classroom_id = cid →
        (e.toMinutes ≤ b.start_time.toMinutes ∨
          b.end_time.toMinutes ≤ s.toMinutes) := by
  induction bookings with
  | nil => simp [is_classroom_available]
  | cons b rest ih =>
    rw [available_cons]
    by_cases hex : some b.id = ex
    · rw [if_pos hex, ih]
      constructor
      · intro h b' hb' hne hcid
        rcases List.mem_cons.mp hb' with h1 | h1
        · exact absurd (h1 ▸ hex) hne
        · exact h b' h1 hne hcid
      · intro h b' hb' hne hcid
        exact h b' (List.mem_cons_of_mem _ hb') hne hcid
    · rw [if_neg hex]
      by_cases hc : b.classroom_id = cid ∧
          ¬(e.toMinutes ≤ b.start_time.toMinutes ∨
            b.end_time.toMinutes ≤ s.toMinutes)
      · rw [if_pos hc]
        apply iff_of_false (by simp)
        intro h
        exact hc.2 (h b (List.mem_cons_self _ _) hex hc.1)
      · rw [if_neg hc, ih]
        constructor
        · intro h b' hb' hne hcid
          rcases List.mem_cons.mp hb' with h1 | h1
          · subst h1
            by_contra hcon
            exact hc ⟨hcid, hcon⟩
          · exact h b' h1 hne hcid
        · intro h b' hb' hne hcid
          exact h b' (List.mem_cons_of_mem _ hb') hne hcid

/-- C1: with no exclusion, is_classroom_available reports a conflict
exactly when some existing booking of the same classroom satisfies
s less than its end and e greater than its start; in particular a
window adjacent to a booking (candidate end equal to the existing start,
or candidate start equal to the existing end) is never a conflict. -/
theorem conflict_iff_half_open (bookings : List Booking) (classroom_id : Int)
    (s e : DateTime) :
    (is_classroom_available bookings classroom_id s e none = false ↔
      ∃ b ∈ bookings, b.classroom_id = classroom_id ∧
        s.toMinutes < b.end_time.toMinutes ∧
        b.start_time.toMinutes < e.toMinutes) ∧
    (∀ b : Booking, b.classroom_id = classroom_id →
      (e.toMinutes = b.start_time.toMinutes ∨
        s.toMinutes = b.end_time.toMinutes) →
      is_classroom_available [b] classroom_id s e none = true) := by
  constructor
  · rw [Bool.eq_false_iff, Ne, available_iff_forall]
    push_neg
    constructor
    · rintro ⟨b, hb, -, hcid, h1, h2⟩
      exact ⟨b, hb, hcid, h2, h1⟩
    · rintro ⟨b, hb, hcid, h2, h1⟩
      exact ⟨b, hb, by simp, hcid, h1, h2⟩
  · intro b hcid hadj
    rw [available_iff_forall]
    intro b' hb' hne hcid'
    have hb'' := List.mem_singleton.mp hb'
    subst hb''
    rcases hadj with h | h
    · left; omega
    · right; omega

/-- C3: availability with an excluded id coincides with availability,
with no exclusion, over the list purged of every booking carrying that
id, so the excluded booking can never cause a conflict; in particular a
booking rechecked against itself alone is always available. -/
theorem exclude_id_removes_booking (bookings : List Booking)
    (classroom_id : Int) (s e : DateTime) (k : Int) :
    (is_classroom_available bookings classroom_id s e (some k) =
      is_classroom_available (bookings.filter (fun b => b.id != k))
        classroom_id s e none) ∧
    (∀ b : Booking,
      is_classroom_available [b] classroom_id s e (some b.id) = true) := by
  constructor
  · induction bookings with
    | nil => rfl
    | cons b rest ih =>
      rw [available_cons]
      by_cases hbk : b.id = k
      · rw [if_pos (by rw [hbk]), List.filter_cons_of_neg (by simp [hbk]), ih]
      · rw [if_neg (by simp [hbk]),
          List.filter_cons_of_pos (by simp [hbk]), available_cons,
          if_neg (show ¬(some b.id = (none : Option Int)) by simp)]
        by_cases hc : b.classroom_id = classroom_id ∧
            ¬(e.toMinutes ≤ b.start_time.toMinutes ∨
              b.end_time.toMinutes ≤ s.toMinutes)
        · rw [if_pos hc, if_pos hc]
        · rw [if_neg hc, if_neg hc, ih]
  · intro b
    rw [available_cons, if_pos rfl]
    rfl

/-- C2 counterexample: the window 06:30 to 07:30 is misaligned (start
minute 30) yet validate_booking_times reports OutsideOperatingHours, not
MisalignedTime, because the operating-hours check runs first. -/
theorem misaligned_out_of_hours_counterexample :
    (DateTime.mk 0 6 30).minute ≠ 0 ∧
    validate_booking_times (DateTime.mk 0 6 30) (DateTime.mk 0 7 30) =
      some RejectReason.outsideOperatingHours ∧
    validate_booking_times (DateTime.mk 0 6 30) (DateTime.mk 0 7 30) ≠
      some RejectReason.misalignedTime := by decide

/-- C2 amended: for a misaligned window, validate_booking_times reports
MisalignedTime exactly when the operating-hours check passes, and this
happens before the start-before-end check; when the window is also out
of operating hours the report is OutsideOperatingHours, because that
check runs first. -/
theorem misaligned_rejected_before_order (s e : DateTime)
    (hmis : s.minute ≠ 0 ∨ e.minute ≠ 0) :
    ((s.hour < 7 ∨ e.hour > 18 ∨ (e.hour = 18 ∧ e.minute > 0)) →
      validate_booking_times s e = some RejectReason.outsideOperatingHours) ∧
    (¬(s.hour < 7 ∨ e.hour > 18 ∨ (e.hour = 18 ∧ e.minute > 0)) →
      validate_booking_times s e = some RejectReason.misalignedTime) := by
  constructor
  · intro h1
    unfold validate_booking_times
    rw [if_pos h1]
  · intro h1
    unfold validate_booking_times
    rw [if_neg h1, if_pos hmis]

/-- Witness for the C2 amended theorem at the window 09:30 to 10:30. -/
theorem misaligned_rejected_before_order_witness :
    validate_booking_times (DateTime.mk 0 9 30) (DateTime.mk 0 10 30) =
      some RejectReason.misalignedTime :=
  (misaligned_rejected_before_order (DateTime.mk 0 9 30) (DateTime.mk 0 10 30)
    (Or.inl (by decide))).2 (by decide)

/-- C4 counterexample: the zero-length window 10:30 to 10:30 has start
equal to end, yet validate_booking_times reports MisalignedTime rather
than InvalidOrder, because the alignment check runs earlier. -/
theorem zero_length_misaligned_counterexample :
    (DateTime.mk 0 10 30).toMinutes ≥ (DateTime.mk 0 10 30).toMinutes ∧
    validate_booking_times (DateTime.mk 0 10 30) (DateTime.mk 0 10 30) =
      some RejectReason.misalignedTime ∧
    validate_booking_times (DateTime.mk 0 10 30) (DateTime.mk 0 10 30) ≠
      some RejectReason.invalidOrder := by decide

/-- C4 amended: every window with start at or after end is rejected by
validate_booking_times, so zero-length windows are never admitted; the
reported reason is InvalidOrder exactly when the window passes the
earlier operating-hours and alignment checks. -/
theorem start_not_before_end_rejected (s e : DateTime)
    (h : s.toMinutes ≥ e.toMinutes) :
    (validate_booking_times s e).isSome = true ∧
    (¬(s.hour < 7 ∨ e.hour > 18 ∨ (e.hour = 18 ∧ e.minute > 0)) →
      s.minute = 0 → e.minute = 0 →
      validate_booking_times s e = some RejectReason.invalidOrder) := by
  constructor
  · unfold validate_booking_times
    by_cases h1 : s.hour < 7 ∨ e.hour > 18 ∨ (e.hour = 18 ∧ e.minute > 0)
    · rw [if_pos h1]; rfl
    · rw [if_neg h1]
      by_cases h2 : s.minute ≠ 0 ∨ e.minute ≠ 0
      · rw [if_pos h2]; rfl
      · rw [if_neg h2, if_pos h]; rfl
  · intro h1 h2 h3
    unfold validate_booking_times
    rw [if_neg h1, if_neg (by omega), if_pos h]

/-- Witness for the C4 amended theorem at the window 10:00 to 10:00. -/
theorem start_not_before_end_witness :
    validate_booking_times (DateTime.mk 0 10 0) (DateTime.mk 0 10 0) =
      some RejectReason.invalidOrder :=
  (start_not_before_end_rejected (DateTime.mk 0 10 0) (DateTime.mk 0 10 0)
    (by decide)).2 (by decide) (by decide) (by decide)

/-- C5: validate_booking_times reports OutsideOperatingHours exactly
when the window fails the condition start hour at least 7 and (end hour
below 18, or end hour 18 with end minute 0); in particular the window
18:00 to 19:00 is rejected with OutsideOperatingHours. -/
theorem operating_hours_acceptance_iff (s e : DateTime) :
    (validate_booking_times s e = some RejectReason.outsideOperatingHours ↔
      ¬(7 ≤ s.hour ∧ (e.hour < 18 ∨ (e.hour = 18 ∧ e.minute = 0)))) ∧
    validate_booking_times (DateTime.mk 0 18 0) (DateTime.mk 0 19 0) =
      some RejectReason.outsideOperatingHours := by
  refine ⟨?_, by decide⟩
  unfold validate_booking_times
  by_cases h1 : s.hour < 7 ∨ e.hour > 18 ∨ (e.hour = 18 ∧ e.minute > 0)
  · rw [if_pos h1]
    exact iff_of_true rfl (by omega)
  · rw [if_neg h1]
    apply iff_of_false
    · by_cases h2 : s.minute ≠ 0 ∨ e.minute ≠ 0
      · rw [if_pos h2]; simp
      · rw [if_neg h2]
        by_cases h3 : s.toMinutes ≥ e.toMinutes
        · rw [if_pos h3]; simp
        · rw [if_neg h3]; simp
    · omega

/-- Closed form of the expansion loop on a window of exactly n hour
units: the i-th emitted slot runs from start plus 60 i for 60 minutes. -/
theorem expandToUnitSlots_closed_form (n : Nat) : ∀ s : Nat,
    expandToUnitSlots s (s + 60 * n) =
      (List.range n).map (fun i => (s + 60 * i, s + 60 * i + 60)) := by
  induction n with
  | zero =>
    intro s
    unfold expandToUnitSlots
    rw [dif_neg (by omega)]
    simp
  | succ m ih =>
    intro s
    unfold expandToUnitSlots
    rw [dif_pos (by omega),
      show s + 60 * (m + 1) = (s + 60) + 60 * m by ring, ih (s + 60),
      List.range_succ_eq_map, List.map_cons, List.map_map]
    congr 1
    apply List.map_congr_left
    intro a ha
    simp only [Function.comp_apply, Nat.succ_eq_add_one, Prod.mk.injEq]
    omega

/-- C6: expanding a window of exactly n hour units yields n slots; the
i-th slot is the pair (start + 60 i, start + 60 i + 60), each slot lasts
exactly 60 minutes, consecutive slots are contiguous, the first slot
begins at the window start and the last slot ends exactly at the window
end, and slots taken in order never overlap. -/
theorem expand_to_unit_slots_spec (s n : Nat) :
    ((expandToUnitSlots s (s + 60 * n)).length = n) ∧
    (∀ i, i < n → (expandToUnitSlots s (s + 60 * n)).get? i =
      some (s + 60 * i, s + 60 * i + 60)) ∧
    (∀ p ∈ expandToUnitSlots s (s + 60 * n), p.2 = p.1 + 60) ∧
    (∀ i, i + 1 < n → ∀ p q,
      (expandToUnitSlots s (s + 60 * n)).get? i = some p →
      (expandToUnitSlots s (s + 60 * n)).get? (i + 1) = some q →
      p.2 = q.1) ∧
    (0 < n → (expandToUnitSlots s (s + 60 * n)).get? 0 = some (s, s + 60) ∧
      (expandToUnitSlots s (s + 60 * n)).get? (n - 1) =
        some (s + 60 * (n - 1), s + 60 * n)) ∧
    (∀ i j, i < j → j < n → ∀ p q,
      (expandToUnitSlots s (s + 60 * n)).get? i = some p →
      (expandToUnitSlots s (s + 60 * n)).get? j = some q →
      p.2 ≤ q.1) := by
  have hcf := expandToUnitSlots_closed_form n s
  have hget : ∀ i, i < n → (expandToUnitSlots s (s + 60 * n)).get? i =
      some (s + 60 * i, s + 60 * i + 60) := by
    intro i hi
    rw [hcf, List.get?_map, List.get?_range hi]
    rfl
  refine ⟨?_, hget, ?_, ?_, ?_, ?_⟩
  · rw [hcf]; simp
  · intro p hp
    rw [hcf] at hp
    obtain ⟨i, -, rfl⟩ := List.mem_map.mp hp
    rfl
  · intro i hi p q hp hq
    rw [hget i (by omega)] at hp
    rw [hget (i + 1) hi] at hq
    injection hp with hp
    injection hq with hq
    subst hp
    subst hq
    show s + 60 * i + 60 = s + 60 * (i + 1)
    ring
  · intro hn
    refine ⟨by simpa using hget 0 hn, ?_⟩
    rw [hget (n - 1) (by omega),
      show s + 60 * (n - 1) + 60 = s + 60 * n by omega]
  · intro i j hij hj p q hp hq
    rw [hget i (by omega)] at hp
    rw [hget j hj] at hq
    injection hp with hp
    injection hq with hq
    subst hp
    subst hq
    show s + 60 * i + 60 ≤ s + 60 * j
    omega

/-- A stored booking with id 1 in classroom 1, 09:00 to 10:00. -/
def bkStored : Booking :=
  Booking.mk 1 1 "anna" (DateTime.mk 0 9 0) (DateTime.mk 0 10 0)

/-- An update request carrying id 5, classroom 1, 11:00 to 12:00. -/
def bkRequest : Booking :=
  Booking.mk 5 1 "anna" (DateTime.mk 0 11 0) (DateTime.mk 0 12 0)

/-- C7: updating booking 1 with a request body whose id field is 5
succeeds in both code variants, but the gruppkod2 and Classroom_API
update loop stores the request as sent, so the stored booking now has
id 5 instead of the original id 1; the main.py loop overwrites the id
with the path id and keeps id 1. -/
theorem change_booking_id_preservation_bug :
    bkStored.id = 1 ∧ bkRequest.id = 5 ∧
    (change_booking_loop_gk2 [bkStored] [bkStored] 1 bkRequest).2 = none ∧
    (change_booking_loop_gk2 [bkStored] [bkStored] 1 bkRequest).1.map
      (fun b => b.id) = [5] ∧
    (change_booking_run [bkStored] 1 bkRequest).2 = none ∧
    (change_booking_run [bkStored] 1 bkRequest).1.map
      (fun b => b.id) = [1] := by decide

/-- State after booking classroom 1 from 09:00 to 10:00 on the empty
store. -/
def seqStep1 : List Booking × Option RejectReason :=
  book_classroom_run []
    (Booking.mk 0 1 "a" (DateTime.mk 0 9 0) (DateTime.mk 0 10 0))

/-- State after additionally booking classroom 1 from 10:00 to 11:00. -/
def seqStep2 : List Booking × Option RejectReason :=
  book_classroom_run seqStep1.1
    (Booking.mk 0 1 "b" (DateTime.mk 0 10 0) (DateTime.mk 0 11 0))

/-- State after additionally cancelling the booking with id 1. -/
def seqStep3 : List Booking × Option RejectReason :=
  cancel_booking_loop seqStep2.1 1

/-- State after additionally booking classroom 1 from 11:00 to 12:00. -/
def seqStep4 : List Booking × Option RejectReason :=
  book_classroom_run seqStep3.1
    (Booking.mk 0 1 "c" (DateTime.mk 0 11 0) (DateTime.mk 0 12 0))

/-- C8: ids are not unique in every reachable state: create two
bookings (ids 1 and 2), cancel id 1, then create again; the new booking
receives id equal to length plus one, which is 2, so the store ends
with two distinct bookings both carrying id 2. -/
theorem duplicate_id_after_delete :
    seqStep1.2 = none ∧ seqStep2.2 = none ∧ seqStep3.2 = none ∧
    seqStep4.2 = none ∧
    seqStep4.1.map (fun b => b.id) = [2, 2] := by decide

/-- The replacement loop leaves the list exactly as given whenever it
reports a reason. -/
theorem change_booking_loop_error_frame (all : List Booking) :
    ∀ (pre : List Booking) (booking_id : Int) (upd : Booking)
      (r : RejectReason),
    (change_booking_loop all pre booking_id upd).2 = some r →
    (change_booking_loop all pre booking_id upd).1 = pre := by
  intro pre booking_id upd r h
  induction pre with
  | nil => rfl
  | cons b rest ih =>
    simp only [change_booking_loop] at h ⊢
    by_cases hb : b.id = booking_id
    · rw [if_pos hb] at h ⊢
      by_cases hav : is_classroom_available all upd.classroom_id
          upd.start_time upd.end_time (some booking_id) = true
      · rw [if_pos hav] at h
        simp at h
      · rw [if_neg hav]
    · rw [if_neg hb] at h ⊢
      rw [ih h]

/-- C9: a rejected creation or update request leaves the bookings store
exactly as it was: whenever book_classroom_run or change_booking_run
reports a reason, the resulting list equals the input list. -/
theorem rejected_request_leaves_store_unchanged (st : List Booking)
    (bkg : Booking) (booking_id : Int) (r : RejectReason) :
    ((book_classroom_run st bkg).2 = some r →
      (book_classroom_run st bkg).1 = st) ∧
    ((change_booking_run st booking_id bkg).2 = some r →
      (change_booking_run st booking_id bkg).1 = st) := by
  constructor
  · intro h
    cases hv : validate_booking_times bkg.start_time bkg.end_time with
    | some r2 =>
      have hb : book_classroom_run st bkg = (st, some r2) := by
        unfold book_classroom_run
        rw [hv]
      rw [hb]
    | none =>
      by_cases hav : is_classroom_available st bkg.classroom_id
          bkg.start_time bkg.end_time none = true
      · have hb : book_classroom_run st bkg =
            (st ++ [{ bkg with id := Int.ofNat (st.length + 1) }], none) := by
          unfold book_classroom_run
          rw [hv, if_pos hav]
        rw [hb] at h
        simp at h
      · have hb : book_classroom_run st bkg =
            (st, some RejectReason.conflict) := by
          unfold book_classroom_run
          rw [hv, if_neg hav]
        rw [hb]
  · intro h
    cases hv : validate_booking_times bkg.start_time bkg.end_time with
    | some r2 =>
      have hb : change_booking_run st booking_id bkg = (st, some r2) := by
        unfold change_booking_run
        rw [hv]
      rw [hb]
    | none =>
      have hb : change_booking_run st booking_id bkg =
          change_booking_loop st st booking_id bkg := by
        unfold change_booking_run
        rw [hv]
      rw [hb] at h ⊢
      exact change_booking_loop_error_frame st st booking_id bkg r h

/-- C10: listing reviews with a nonzero classroom id returns exactly the
reviews of that classroom; with classroom id 0 the filter is skipped,
exactly as with no filter, and every review is returned. -/
theorem list_reviews_filter_spec (reviews : List Review) (c : Int) :
    (c ≠ 0 → list_reviews reviews (some c) =
      reviews.filter (fun r => r.classroom_id == c)) ∧
    (∀ r : Review, c ≠ 0 →
      (r ∈ list_reviews reviews (some c) ↔
        r ∈ reviews ∧ r.classroom_id = c)) ∧
    list_reviews reviews (some 0) = reviews ∧
    list_reviews reviews none = reviews := by
  have hsome : ∀ k : Int, list_reviews reviews (some k) =
      if k = 0 then reviews
      else reviews.filter (fun r => r.classroom_id == k) := fun _ => rfl
  refine ⟨fun hc => ?_, fun r hc => ?_, ?_, rfl⟩
  · rw [hsome, if_neg hc]
  · rw [hsome, if_neg hc]
    simp [List.mem_filter]
  · rw [hsome, if_pos rfl]

end BookingSystem
